import Mathlib

/-!
Shallow embedding of `src/main.rs` of `msg-nosignal-test`, a small Rust
diagnostic tool: a background listener thread (TCP or UDP) that echoes
received bytes, paired with a foreground client loop that sends the fixed
payload `ping` once per second.  The embedding models each blocking socket
call by an event supplied by the environment (the OS / the peer): a trace of
events drives the loops, and the functions below compute exactly what the
Rust loops do on that trace.
-/

/-- A transport-level socket address (IP, port), as carried by
`std::net::SocketAddr`.  The program never inspects its parts, so an
abstract pair of naturals suffices. -/
structure SockAddr where
  ip : Nat
  port : Nat
deriving DecidableEq, Repr

/-- `usize::MAX` on the 64-bit targets the tool runs on; used by
`accept_pings.unwrap_or(usize::MAX)` in both listener threads. -/
def USIZE_MAX : Nat := 2 ^ 64 - 1

/-- `accept_pings.unwrap_or(usize::MAX)`: the effective iteration bound of
both listener loops (main.rs lines 73 and 115). -/
def effectiveBound (acceptPings : Option Nat) : Nat :=
  acceptPings.getD USIZE_MAX

/-- Outcome of one `stream.read(&mut buf)` call on an accepted TCP
connection, as supplied by the peer/OS.  `ok payload writeOk` means the
read succeeds and the bytes available are `payload` (the 1024-byte buffer
truncates them to `payload.take 1024`, and the read returns that length —
`0` exactly when `payload = []`); `writeOk` tells whether the subsequent
`write_all` echo (if attempted) succeeds.  `err` is a read error. -/
inductive ConnEvent where
  | ok (payload : List Nat) (writeOk : Bool)
  | err
deriving DecidableEq, Repr

/-- Why the per-connection read loop of the TCP listener stopped. -/
inductive ConnStop where
  | boundExhausted
  | eof
  | writeErr
  | readErr
  | blocked
deriving DecidableEq, Repr

/-- Result of draining one accepted TCP connection: the payloads echoed
back in order, the number of `read` calls performed, and why the loop
stopped (`blocked` means the trace ran out while the loop would keep
reading). -/
structure ConnResult where
  echoes : List (List Nat)
  reads : Nat
  stop : ConnStop
deriving DecidableEq, Repr

/-- The inner loop of the TCP listener thread (main.rs lines 72-83):
`for _ in 0..accept_pings.unwrap_or(usize::MAX) { match stream.read(&mut buf)
{ Ok(0) => break, Ok(n) => { if stream.write_all(&buf[..n]).is_err() { break; } },
Err(_) => break } }`.  First argument is the remaining iteration budget. -/
def tcpConnLoop : Nat → List ConnEvent → ConnResult
  | 0, _ => ⟨[], 0, .boundExhausted⟩
  | _ + 1, [] => ⟨[], 0, .blocked⟩
  | k + 1, ev :: rest =>
    match ev with
    | .err => ⟨[], 1, .readErr⟩
    | .ok payload writeOk =>
      match payload.take 1024 with
      | [] => ⟨[], 1, .eof⟩
      | data =>
        if writeOk then
          let r := tcpConnLoop k rest
          ⟨data :: r.echoes, r.reads + 1, r.stop⟩
        else ⟨[], 1, .writeErr⟩

/-- Outcome of one `listener.incoming()` step of the TCP accept loop:
either a new connection, carrying the trace of read events it will
deliver, or an accept error. -/
inductive AcceptEvent where
  | conn (events : List ConnEvent)
  | acceptErr
deriving DecidableEq, Repr

/-- Result of the whole TCP listener thread: the per-connection results in
accept order, and whether the thread ended because `incoming()` yielded an
error (`true`) or merely because the supplied trace ran out (`false`,
i.e. the thread would still be blocked in accept). -/
structure ListenerResult where
  conns : List ConnResult
  acceptErrStop : Bool
deriving DecidableEq, Repr

/-- The TCP listener thread body (main.rs lines 68-88): `for stream in
listener.incoming() { match stream { Ok(mut stream) => { ...tcpConnLoop... },
Err(_) => break } }`.  Connections are drained one at a time in accept
order, each with a fresh iteration budget `bound`. -/
def tcpListenerTask (bound : Nat) : List AcceptEvent → ListenerResult
  | [] => ⟨[], false⟩
  | .acceptErr :: _ => ⟨[], true⟩
  | .conn evs :: rest =>
    let r := tcpListenerTask bound rest
    ⟨tcpConnLoop bound evs :: r.conns, r.acceptErrStop⟩

/-- The connection traces the accept loop actually reaches: every
connection before the first accept error. -/
def connTraces : List AcceptEvent → List (List ConnEvent)
  | [] => []
  | .acceptErr :: _ => []
  | .conn evs :: rest => evs :: connTraces rest

/-- Outcome of one `listener.recv_from(&mut buf)` call of the UDP listener:
a datagram with its raw payload and sender address (the buffer truncates
the payload to `payload.take 1024`), plus whether the subsequent `send_to`
reply succeeds; or a receive error. -/
inductive UdpEvent where
  | recvOk (payload : List Nat) (sender : SockAddr) (sendOk : Bool)
  | recvErr
deriving DecidableEq, Repr

/-- Why the UDP listener loop stopped. -/
inductive UdpStop where
  | boundExhausted
  | sendErr
  | recvErr
  | blocked
deriving DecidableEq, Repr

/-- One reply datagram sent by the UDP listener: destination address and
the bytes sent. -/
structure UdpSend where
  dest : SockAddr
  data : List Nat
deriving DecidableEq, Repr

/-- Result of the UDP listener thread: replies sent in order, number of
`recv_from` calls performed, and why the loop stopped. -/
structure UdpResult where
  sends : List UdpSend
  recvs : Nat
  stop : UdpStop
deriving DecidableEq, Repr

/-- The UDP listener thread body (main.rs lines 113-125): `for _ in
0..accept_pings.unwrap_or(usize::MAX) { match listener.recv_from(&mut buf)
{ Ok((n, addr)) => { if listener.send_to(&buf[..n], addr).is_err() { break; } },
Err(_) => break } }`.  Unlike TCP there is no special case for a
zero-length datagram: it is echoed back empty. -/
def udpListenerTask : Nat → List UdpEvent → UdpResult
  | 0, _ => ⟨[], 0, .boundExhausted⟩
  | _ + 1, [] => ⟨[], 0, .blocked⟩
  | k + 1, ev :: rest =>
    match ev with
    | .recvErr => ⟨[], 1, .recvErr⟩
    | .recvOk payload sender sendOk =>
      if sendOk then
        let r := udpListenerTask k rest
        ⟨⟨sender, payload.take 1024⟩ :: r.sends, r.recvs + 1, r.stop⟩
      else ⟨[], 1, .sendErr⟩

/-- An `anyhow` error as observed at the process boundary: the chain of
`.context(...)` strings from outermost to innermost, ending with the
underlying I/O error's own message. -/
abbrev ErrChain := List String

/-- The environment of one iteration of the TCP client loop `ping_tcp`
(main.rs lines 96-103): the outcome of `stream.write_all(b"ping")` and,
if that succeeded, of `stream.read(&mut buf)` (which returns the number
of bytes read; `0` means the peer closed the connection). -/
structure TcpClientEvent where
  writeRes : Except String Unit
  readRes : Except String Nat
deriving Repr

/-- State of a client loop after consuming a finite trace: either still
`running` having completed `iters` iterations (the loop itself is
infinite — `for n in 0..`), or `fatal` at iteration `iters` with the
`anyhow` error chain the function returns via `?`. -/
inductive ClientState where
  | running (iters : Nat)
  | fatal (iters : Nat) (err : ErrChain)
deriving DecidableEq, Repr

/-- The body of `ping_tcp`'s infinite loop (main.rs lines 96-103): each
iteration logs `ping n`, writes the 4-byte payload `ping`, performs one
read whose result is discarded (a `0` return is not an error), sleeps one
second.  The first argument is the iteration counter `n`; any write or
read error propagates with `?` (no added context at this level). -/
def pingTcpGo : Nat → List TcpClientEvent → ClientState
  | n, [] => .running n
  | n, ev :: rest =>
    match ev.writeRes with
    | .error e => .fatal n [e]
    | .ok _ =>
      match ev.readRes with
      | .error e => .fatal n [e]
      | .ok _ => pingTcpGo (n + 1) rest

/-- `ping_tcp` (main.rs lines 93-105): `TcpStream::connect(addr)` with
context `failed to connect`, then the infinite ping loop. -/
def ping_tcp (connectRes : Except String Unit) (evs : List TcpClientEvent) :
    ClientState :=
  match connectRes with
  | .error e => .fatal 0 ["failed to connect", e]
  | .ok _ => pingTcpGo 0 evs

/-- The environment of one iteration of the UDP client loop `ping_udp`
(main.rs lines 135-142): the outcome of `socket.send_to(b"ping", addr)`
and, if that succeeded, of `socket.recv_from(&mut buf)` (bytes received). -/
structure UdpClientEvent where
  sendRes : Except String Unit
  recvRes : Except String Nat
deriving Repr

/-- The body of `ping_udp`'s infinite loop (main.rs lines 135-142): log,
send the 4-byte payload, wait for one inbound datagram (result discarded),
sleep; send/receive errors propagate with `?`. -/
def pingUdpGo : Nat → List UdpClientEvent → ClientState
  | n, [] => .running n
  | n, ev :: rest =>
    match ev.sendRes with
    | .error e => .fatal n [e]
    | .ok _ =>
      match ev.recvRes with
      | .error e => .fatal n [e]
      | .ok _ => pingUdpGo (n + 1) rest

/-- `ping_udp` (main.rs lines 130-145): `UdpSocket::bind("127.0.0.1:0")`
with context `failed to connect` (sic — the source uses that string for
the client-side bind), then the infinite send/receive loop. -/
def ping_udp (bindRes : Except String Unit) (evs : List UdpClientEvent) :
    ClientState :=
  match bindRes with
  | .error e => .fatal 0 ["failed to connect", e]
  | .ok _ => pingUdpGo 0 evs

/-- State of the whole process as driven by `main`/`App::exec`: still
`running` the foreground client loop (having completed `iters`
iterations), or `exited` after `main` returned the given `anyhow` error
(the loops are infinite, so the modelled paths never exit successfully). -/
inductive ProcState where
  | running (iters : Nat)
  | exited (err : ErrChain)
deriving DecidableEq, Repr

/-- Process exit status: `none` while still running; `anyhow::Result`
from `main` maps an `Err` to exit code 1. -/
def exitCode : ProcState → Option Nat
  | .running _ => none
  | .exited _ => some 1

/-- `App::exec` for `Command::Tcp` together with `main` (main.rs lines
36-42): `spawn_tcp_ping_thread` binds (context `failed to bind`), gets the
local address (context `failed to get local address`) — both wrapped by
exec in `failed to spawn TCP ping thread` — and spawns the listener
thread, whose `JoinHandle` is discarded; then `ping_tcp` runs in the
foreground, its error wrapped in `failed to ping TCP`.  Returns the
foreground process state plus the background listener's result (`none`
when the listener was never spawned). -/
def execTcp (acceptPings : Option Nat) (bindRes : Except String Unit)
    (addrRes : Except String SockAddr) (lEvs : List AcceptEvent)
    (connectRes : Except String Unit) (cEvs : List TcpClientEvent) :
    ProcState × Option ListenerResult :=
  match bindRes with
  | .error e => (.exited ["failed to spawn TCP ping thread", "failed to bind", e], none)
  | .ok _ =>
    match addrRes with
    | .error e =>
      (.exited ["failed to spawn TCP ping thread", "failed to get local address", e], none)
    | .ok _ =>
      let lr := tcpListenerTask (effectiveBound acceptPings) lEvs
      match ping_tcp connectRes cEvs with
      | .running n => (.running n, some lr)
      | .fatal _ ch => (.exited ("failed to ping TCP" :: ch), some lr)

/-- `App::exec` for `Command::Udp` together with `main` (main.rs lines
43-49): `spawn_udp_ping_thread` (contexts `failed to bind`, `failed to get
local address`, wrapped in `failed to spawn UDP ping thread`), thread
handle discarded; then `ping_udp` in the foreground, its error wrapped in
`failed to ping UDP`. -/
def execUdp (acceptPings : Option Nat) (bindRes : Except String Unit)
    (addrRes : Except String SockAddr) (lEvs : List UdpEvent)
    (cBindRes : Except String Unit) (cEvs : List UdpClientEvent) :
    ProcState × Option UdpResult :=
  match bindRes with
  | .error e => (.exited ["failed to spawn UDP ping thread", "failed to bind", e], none)
  | .ok _ =>
    match addrRes with
    | .error e =>
      (.exited ["failed to spawn UDP ping thread", "failed to get local address", e], none)
    | .ok _ =>
      let lr := udpListenerTask (effectiveBound acceptPings) lEvs
      match ping_udp cBindRes cEvs with
      | .running n => (.running n, some lr)
      | .fatal _ ch => (.exited ("failed to ping UDP" :: ch), some lr)

/-- Modelled from the spec: the repository has two near-duplicate variants
selectable by the caller — a ping/echo variant and a write/log variant
(spec section 2 and section 9 design note, a parameterized component
with a reply switch).  Only the ping/echo variant's source file is under
`src/`; the selector and the write/log loops below follow the spec's
words. -/
inductive Variant where
  | pingEcho
  | writeLog
deriving DecidableEq, Repr

/-- Result of the write/log TCP listener draining one connection: the
byte counts it logged, the reply payloads it sent back (the spec says it
never replies), reads performed, and the stop reason. -/
structure LogConnResult where
  logs : List Nat
  replies : List (List Nat)
  reads : Nat
  stop : ConnStop
deriving DecidableEq, Repr

/-- Modelled from the spec: the write/log variant's per-connection TCP
listener loop (spec section 4.1 case (b)): a successful non-zero read is
only logged with its byte count, no reply is sent; zero-length read,
read error and the message-count bound behave as in the ping/echo
variant.  Its source file is not under `src/`. -/
def writeLogTcpConnLoop : Nat → List ConnEvent → LogConnResult
  | 0, _ => ⟨[], [], 0, .boundExhausted⟩
  | _ + 1, [] => ⟨[], [], 0, .blocked⟩
  | k + 1, ev :: rest =>
    match ev with
    | .err => ⟨[], [], 1, .readErr⟩
    | .ok payload _ =>
      match payload.take 1024 with
      | [] => ⟨[], [], 1, .eof⟩
      | data =>
        let r := writeLogTcpConnLoop k rest
        ⟨data.length :: r.logs, r.replies, r.reads + 1, r.stop⟩

/-- Result of the write/log UDP listener: (length, sender) pairs logged,
reply datagrams sent (the spec says none), receives performed, stop
reason. -/
structure LogUdpResult where
  logs : List (Nat × SockAddr)
  sends : List UdpSend
  recvs : Nat
  stop : UdpStop
deriving DecidableEq, Repr

/-- Modelled from the spec: the write/log variant's UDP listener loop
(spec section 4.2): receives one datagram at a time bounded by the same
message-count limit, logs sender and length only, sends no reply.  Its
source file is not under `src/`. -/
def writeLogUdpTask : Nat → List UdpEvent → LogUdpResult
  | 0, _ => ⟨[], [], 0, .boundExhausted⟩
  | _ + 1, [] => ⟨[], [], 0, .blocked⟩
  | k + 1, ev :: rest =>
    match ev with
    | .recvErr => ⟨[], [], 1, .recvErr⟩
    | .recvOk payload sender _ =>
      let r := writeLogUdpTask k rest
      ⟨((payload.take 1024).length, sender) :: r.logs, r.sends, r.recvs + 1, r.stop⟩

/-- Modelled from the spec: the write/log variant's client loop body
(spec sections 4.4 and 4.5): each iteration only writes the fixed
payload and does not attempt to read a reply; write errors propagate as
in the ping/echo client.  Its source file is not under `src/`. -/
def writeLogClientGo : Nat → List (Except String Unit) → ClientState
  | n, [] => .running n
  | n, w :: rest =>
    match w with
    | .error e => .fatal n [e]
    | .ok _ => writeLogClientGo (n + 1) rest

/-- Modelled from the spec: the write/log client loop with the replies
the listener might make available modelled as an extra argument; the
loop never consults it, since it performs no read (spec section 8:
a listener that never replies does not stall the client loop). -/
def writeLogClient (writes : List (Except String Unit))
    (replies : List (Option Nat)) : ClientState :=
  writeLogClientGo 0 writes

/-! ### Helper lemmas -/

theorem tcpConnLoop_reads_le (N : Nat) : ∀ evs, (tcpConnLoop N evs).reads ≤ N := by
  induction N with
  | zero => intro evs; simp [tcpConnLoop]
  | succ k ih =>
    intro evs
    match evs with
    | [] => simp [tcpConnLoop]
    | .err :: rest => simp [tcpConnLoop]
    | .ok payload writeOk :: rest =>
      simp only [tcpConnLoop]
      cases h : payload.take 1024 with
      | nil => simp
      | cons a l =>
        cases writeOk with
        | false => simp
        | true =>
          simp only [if_true]
          have := ih rest
          omega

theorem tcpConnLoop_take (N : Nat) :
    ∀ evs, tcpConnLoop N evs = tcpConnLoop N (evs.take N) := by
  induction N with
  | zero => intro evs; simp [tcpConnLoop]
  | succ k ih =>
    intro evs
    match evs with
    | [] => rfl
    | .err :: rest => rfl
    | .ok payload writeOk :: rest =>
      simp only [List.take_succ_cons, tcpConnLoop]
      cases h : payload.take 1024 with
      | nil => rfl
      | cons a l =>
        cases writeOk with
        | false => rfl
        | true => simp only [if_true, ih rest]

theorem udpListenerTask_recvs_le (N : Nat) :
    ∀ evs, (udpListenerTask N evs).recvs ≤ N := by
  induction N with
  | zero => intro evs; simp [udpListenerTask]
  | succ k ih =>
    intro evs
    match evs with
    | [] => simp [udpListenerTask]
    | .recvErr :: rest => simp [udpListenerTask]
    | .recvOk payload sender sendOk :: rest =>
      simp only [udpListenerTask]
      cases sendOk with
      | false => simp
      | true =>
        simp only [if_true]
        have := ih rest
        omega

theorem udpListenerTask_take (N : Nat) :
    ∀ evs, udpListenerTask N evs = udpListenerTask N (evs.take N) := by
  induction N with
  | zero => intro evs; simp [udpListenerTask]
  | succ k ih =>
    intro evs
    match evs with
    | [] => rfl
    | .recvErr :: rest => rfl
    | .recvOk payload sender sendOk :: rest =>
      simp only [List.take_succ_cons, udpListenerTask]
      cases sendOk with
      | false => rfl
      | true => simp only [if_true, ih rest]

theorem tcpListenerTask_conns (bound : Nat) :
    ∀ aevs, (tcpListenerTask bound aevs).conns =
      (connTraces aevs).map (tcpConnLoop bound) := by
  intro aevs
  induction aevs with
  | nil => rfl
  | cons ev rest ih =>
    cases ev with
    | acceptErr => rfl
    | conn evs => simp [tcpListenerTask, connTraces, ih]

theorem pingTcpGo_replicate (m : Nat) :
    ∀ n k rest, pingTcpGo n (List.replicate m ⟨Except.ok (), Except.ok k⟩ ++ rest) =
      pingTcpGo (n + m) rest := by
  induction m with
  | zero => intro n k rest; rfl
  | succ j ih =>
    intro n k rest
    simp only [List.replicate_succ, List.cons_append, List.append_eq, pingTcpGo]
    rw [ih (n + 1) k rest]
    congr 1
    omega

theorem pingUdpGo_replicate (m : Nat) :
    ∀ n k rest, pingUdpGo n (List.replicate m ⟨Except.ok (), Except.ok k⟩ ++ rest) =
      pingUdpGo (n + m) rest := by
  induction m with
  | zero => intro n k rest; rfl
  | succ j ih =>
    intro n k rest
    simp only [List.replicate_succ, List.cons_append, List.append_eq, pingUdpGo]
    rw [ih (n + 1) k rest]
    congr 1
    omega

theorem writeLogTcpConnLoop_replies (N : Nat) :
    ∀ evs, (writeLogTcpConnLoop N evs).replies = [] := by
  induction N with
  | zero => intro evs; rfl
  | succ k ih =>
    intro evs
    match evs with
    | [] => rfl
    | .err :: rest => rfl
    | .ok payload w :: rest =>
      simp only [writeLogTcpConnLoop]
      cases h : payload.take 1024 with
      | nil => rfl
      | cons a l => simp [ih rest]

theorem writeLogUdpTask_sends (N : Nat) :
    ∀ evs, (writeLogUdpTask N evs).sends = [] := by
  induction N with
  | zero => intro evs; rfl
  | succ k ih =>
    intro evs
    match evs with
    | [] => rfl
    | .recvErr :: rest => rfl
    | .recvOk payload sender sendOk :: rest => simp [writeLogUdpTask, ih rest]

theorem tcpConnLoop_echo_cons (bound : Nat) (a : Nat) (l : List Nat)
    (rest : List ConnEvent) (h : l.length ≤ 1023) :
    tcpConnLoop (bound + 1) (ConnEvent.ok (a :: l) true :: rest) =
      ⟨(a :: l) :: (tcpConnLoop bound rest).echoes, (tcpConnLoop bound rest).reads + 1,
        (tcpConnLoop bound rest).stop⟩ := by
  have ht : (a :: l).take 1024 = a :: l := by
    apply List.take_of_length_le
    simp
    omega
  simp only [tcpConnLoop, ht]
  simp

/-! ### Claim theorems -/

/-- C1: for every bound N supplied as the message-count limit, the listener
performs at most N receive events before stopping: the TCP listener's count
is per accepted connection (every accepted connection is drained with the
full budget N afresh), the UDP listener's is per socket lifetime; and the
result of a connection (TCP) or of the whole socket loop (UDP) depends only
on its first N receive events, so a message sent after the bound is
reached is never read back. -/
theorem listener_bound_at_most_N :
    (∀ N evs, (tcpConnLoop N evs).reads ≤ N) ∧
    (∀ N evs, tcpConnLoop N evs = tcpConnLoop N (evs.take N)) ∧
    (∀ N aevs r, r ∈ (tcpListenerTask N aevs).conns → r.reads ≤ N) ∧
    (∀ N uevs, (udpListenerTask N uevs).recvs ≤ N) ∧
    (∀ N uevs, udpListenerTask N uevs = udpListenerTask N (uevs.take N)) := by
  refine ⟨tcpConnLoop_reads_le, tcpConnLoop_take, ?_,
    udpListenerTask_recvs_le, udpListenerTask_take⟩
  intro N aevs r hr
  rw [tcpListenerTask_conns] at hr
  rcases List.mem_map.mp hr with ⟨evs, _, rfl⟩
  exact tcpConnLoop_reads_le N evs

/-- Witness for `listener_bound_at_most_N`: a concrete connection processed
by the TCP listener with bound 3 performs at most 3 reads. -/
theorem listener_bound_at_most_N_witness :
    (⟨[[7]], 1, ConnStop.blocked⟩ : ConnResult) ∈
      (tcpListenerTask 3 [AcceptEvent.conn [ConnEvent.ok [7] true]]).conns ∧
    (⟨[[7]], 1, ConnStop.blocked⟩ : ConnResult).reads ≤ 3 :=
  ⟨by decide,
   listener_bound_at_most_N.2.2.1 3 [AcceptEvent.conn [ConnEvent.ok [7] true]]
     ⟨[[7]], 1, ConnStop.blocked⟩ (by decide)⟩

/-- C2: the ping/echo listener echoes back exactly the bytes it received.
A TCP read of a payload of at most 1024 bytes is echoed verbatim on the
same connection; a longer payload is echoed truncated to the 1024-byte
buffer.  The UDP listener sends the echo to the sender address reported by
`recv_from`, verbatim when the datagram fits the buffer and truncated to
1024 bytes otherwise. -/
theorem echo_roundtrip_identity :
    (∀ bound a l rest, (a :: l : List Nat).length ≤ 1024 →
      tcpConnLoop (bound + 1) (ConnEvent.ok (a :: l) true :: rest) =
        ⟨(a :: l) :: (tcpConnLoop bound rest).echoes,
          (tcpConnLoop bound rest).reads + 1, (tcpConnLoop bound rest).stop⟩) ∧
    (∀ bound a l rest,
      (tcpConnLoop (bound + 1) (ConnEvent.ok (a :: l) true :: rest)).echoes.head? =
        some ((a :: l : List Nat).take 1024)) ∧
    (∀ bound p s rest,
      (udpListenerTask (bound + 1) (UdpEvent.recvOk p s true :: rest)).sends.head? =
        some ⟨s, p.take 1024⟩) ∧
    (∀ bound (p : List Nat) s rest, p.length ≤ 1024 →
      (udpListenerTask (bound + 1) (UdpEvent.recvOk p s true :: rest)).sends.head? =
        some ⟨s, p⟩) := by
  have hudp : ∀ bound p s rest,
      (udpListenerTask (bound + 1) (UdpEvent.recvOk p s true :: rest)).sends.head? =
        some ⟨s, p.take 1024⟩ := by
    intro bound p s rest
    simp [udpListenerTask]
  refine ⟨?_, ?_, hudp, ?_⟩
  · intro bound a l rest h
    apply tcpConnLoop_echo_cons
    simp at h
    omega
  · intro bound a l rest
    have e : (a :: l).take 1024 = a :: l.take 1023 := rfl
    simp [tcpConnLoop, e]
  · intro bound p s rest h
    rw [hudp bound p s rest, List.take_of_length_le h]

/-- Witness for `echo_roundtrip_identity`: the 2-byte payload `[3, 4]` is
echoed back verbatim over TCP, and the 1-byte datagram `[5]` is echoed
verbatim over UDP to its sender. -/
theorem echo_roundtrip_identity_witness :
    ((3 :: [4] : List Nat).length ≤ 1024 ∧
      tcpConnLoop (0 + 1) (ConnEvent.ok (3 :: [4]) true :: []) =
        ⟨(3 :: [4]) :: (tcpConnLoop 0 []).echoes, (tcpConnLoop 0 []).reads + 1,
          (tcpConnLoop 0 []).stop⟩) ∧
    (([5] : List Nat).length ≤ 1024 ∧
      (udpListenerTask (0 + 1) (UdpEvent.recvOk [5] ⟨1, 2⟩ true :: [])).sends.head? =
        some ⟨⟨1, 2⟩, [5]⟩) :=
  ⟨⟨by decide, echo_roundtrip_identity.1 0 3 [4] [] (by decide)⟩,
   ⟨by decide, echo_roundtrip_identity.2.2.2 0 [5] ⟨1, 2⟩ [] (by decide)⟩⟩

/-- C3: every error inside the background listener task is swallowed.  A
read error or an echo-write error on a TCP connection ends only that
connection's loop (one read consumed, stop reason recorded) and the accept
loop proceeds with the remaining connections; an accept error ends the
whole listener task with no further connections; a UDP receive or send
error ends the whole background task.  None of this reaches the
foreground: the process-state component of `execTcp`/`execUdp` is the
same for any two listener-side traces. -/
theorem listener_errors_swallowed :
    (∀ k rest, tcpConnLoop (k + 1) (ConnEvent.err :: rest) =
      ⟨[], 1, ConnStop.readErr⟩) ∧
    (∀ k a l rest, tcpConnLoop (k + 1) (ConnEvent.ok (a :: l) false :: rest) =
      ⟨[], 1, ConnStop.writeErr⟩) ∧
    (∀ bound evs rest, tcpListenerTask bound (AcceptEvent.conn evs :: rest) =
      ⟨tcpConnLoop bound evs :: (tcpListenerTask bound rest).conns,
        (tcpListenerTask bound rest).acceptErrStop⟩) ∧
    (∀ bound rest, tcpListenerTask bound (AcceptEvent.acceptErr :: rest) =
      ⟨[], true⟩) ∧
    (∀ k rest, udpListenerTask (k + 1) (UdpEvent.recvErr :: rest) =
      ⟨[], 1, UdpStop.recvErr⟩) ∧
    (∀ k p s rest, udpListenerTask (k + 1) (UdpEvent.recvOk p s false :: rest) =
      ⟨[], 1, UdpStop.sendErr⟩) ∧
    (∀ ap b ad l1 l2 c ce, (execTcp ap b ad l1 c ce).1 = (execTcp ap b ad l2 c ce).1) ∧
    (∀ ap b ad l1 l2 cb ce, (execUdp ap b ad l1 cb ce).1 = (execUdp ap b ad l2 cb ce).1) := by
  refine ⟨fun k rest => rfl, fun k a l rest => rfl, fun bound evs rest => rfl,
    fun bound rest => rfl, fun k rest => rfl, fun k p s rest => rfl, ?_, ?_⟩
  · intro ap b ad l1 l2 c ce
    cases b with
    | error e => rfl
    | ok u =>
      cases ad with
      | error e => rfl
      | ok a => cases hc : ping_tcp c ce <;> simp [execTcp, hc]
  · intro ap b ad l1 l2 cb ce
    cases b with
    | error e => rfl
    | ok u =>
      cases ad with
      | error e => rfl
      | ok a => cases hc : ping_udp cb ce <;> simp [execUdp, hc]

/-- C4: in the client path, a failure to bind, to obtain the bound local
address, to connect (TCP) or to bind the client socket (UDP), and any
send/receive error once the loop runs, all propagate to the process
boundary as a fatal `anyhow` error whose context chain names the failed
operation, and the process exits with status 1 (non-zero); absent such an
error the client loop keeps running, completing one iteration per trace
event. -/
theorem client_errors_fatal :
    (∀ ap e ad l c ce, execTcp ap (Except.error e) ad l c ce =
      (ProcState.exited ["failed to spawn TCP ping thread", "failed to bind", e], none)) ∧
    (∀ ap e l c ce, execTcp ap (Except.ok ()) (Except.error e) l c ce =
      (ProcState.exited
        ["failed to spawn TCP ping thread", "failed to get local address", e], none)) ∧
    (∀ ap ad l e ce, (execTcp ap (Except.ok ()) (Except.ok ad) l (Except.error e) ce).1 =
      ProcState.exited ["failed to ping TCP", "failed to connect", e]) ∧
    (∀ ap ad l m k e rr rest,
      (execTcp ap (Except.ok ()) (Except.ok ad) l (Except.ok ())
        (List.replicate m ⟨Except.ok (), Except.ok k⟩ ++
          ⟨Except.error e, rr⟩ :: rest)).1 =
      ProcState.exited ["failed to ping TCP", e]) ∧
    (∀ ap ad l m k e rest,
      (execTcp ap (Except.ok ()) (Except.ok ad) l (Except.ok ())
        (List.replicate m ⟨Except.ok (), Except.ok k⟩ ++
          ⟨Except.ok (), Except.error e⟩ :: rest)).1 =
      ProcState.exited ["failed to ping TCP", e]) ∧
    (∀ ap ad l m k,
      (execTcp ap (Except.ok ()) (Except.ok ad) l (Except.ok ())
        (List.replicate m ⟨Except.ok (), Except.ok k⟩)).1 = ProcState.running m) ∧
    (∀ ap e ad l cb ce, execUdp ap (Except.error e) ad l cb ce =
      (ProcState.exited ["failed to spawn UDP ping thread", "failed to bind", e], none)) ∧
    (∀ ap e l cb ce, execUdp ap (Except.ok ()) (Except.error e) l cb ce =
      (ProcState.exited
        ["failed to spawn UDP ping thread", "failed to get local address", e], none)) ∧
    (∀ ap ad l e ce, (execUdp ap (Except.ok ()) (Except.ok ad) l (Except.error e) ce).1 =
      ProcState.exited ["failed to ping UDP", "failed to connect", e]) ∧
    (∀ ap ad l m k e rr rest,
      (execUdp ap (Except.ok ()) (Except.ok ad) l (Except.ok ())
        (List.replicate m ⟨Except.ok (), Except.ok k⟩ ++
          ⟨Except.error e, rr⟩ :: rest)).1 =
      ProcState.exited ["failed to ping UDP", e]) ∧
    (∀ ap ad l m k e rest,
      (execUdp ap (Except.ok ()) (Except.ok ad) l (Except.ok ())
        (List.replicate m ⟨Except.ok (), Except.ok k⟩ ++
          ⟨Except.ok (), Except.error e⟩ :: rest)).1 =
      ProcState.exited ["failed to ping UDP", e]) ∧
    (∀ ap ad l m k,
      (execUdp ap (Except.ok ()) (Except.ok ad) l (Except.ok ())
        (List.replicate m ⟨Except.ok (), Except.ok k⟩)).1 = ProcState.running m) ∧
    (∀ ch, exitCode (ProcState.exited ch) = some 1) ∧
    (∀ n, exitCode (ProcState.running n) = none) := by
  refine ⟨fun ap e ad l c ce => rfl, fun ap e l c ce => rfl, ?_, ?_, ?_, ?_,
    fun ap e ad l cb ce => rfl, fun ap e l cb ce => rfl, ?_, ?_, ?_, ?_,
    fun ch => rfl, fun n => rfl⟩
  · intro ap ad l e ce
    simp [execTcp, ping_tcp]
  · intro ap ad l m k e rr rest
    have h := pingTcpGo_replicate m 0 k (⟨Except.error e, rr⟩ :: rest)
    simp only [Nat.zero_add] at h
    simp [execTcp, ping_tcp, h, pingTcpGo]
  · intro ap ad l m k e rest
    have h := pingTcpGo_replicate m 0 k (⟨Except.ok (), Except.error e⟩ :: rest)
    simp only [Nat.zero_add] at h
    simp [execTcp, ping_tcp, h, pingTcpGo]
  · intro ap ad l m k
    have h := pingTcpGo_replicate m 0 k []
    simp only [Nat.zero_add, List.append_nil] at h
    simp [execTcp, ping_tcp, h, pingTcpGo]
  · intro ap ad l e ce
    simp [execUdp, ping_udp]
  · intro ap ad l m k e rr rest
    have h := pingUdpGo_replicate m 0 k (⟨Except.error e, rr⟩ :: rest)
    simp only [Nat.zero_add] at h
    simp [execUdp, ping_udp, h, pingUdpGo]
  · intro ap ad l m k e rest
    have h := pingUdpGo_replicate m 0 k (⟨Except.ok (), Except.error e⟩ :: rest)
    simp only [Nat.zero_add] at h
    simp [execUdp, ping_udp, h, pingUdpGo]
  · intro ap ad l m k
    have h := pingUdpGo_replicate m 0 k []
    simp only [Nat.zero_add, List.append_nil] at h
    simp [execUdp, ping_udp, h, pingUdpGo]

/-- C5: a zero-length TCP read (orderly peer shutdown) ends that
connection's loop after exactly that one read, with no echo for it and
with the orderly `eof` stop reason rather than an error one; the
remaining accepted connections are processed exactly as they would be
otherwise, whatever followed the zero-length read on that connection. -/
theorem tcp_zero_read_ends_conn :
    (∀ k w rest, tcpConnLoop (k + 1) (ConnEvent.ok [] w :: rest) =
      ⟨[], 1, ConnStop.eof⟩) ∧
    ((ConnStop.eof == ConnStop.readErr) = false) ∧
    ((ConnStop.eof == ConnStop.writeErr) = false) ∧
    (∀ k w crest arest,
      tcpListenerTask (k + 1) (AcceptEvent.conn (ConnEvent.ok [] w :: crest) :: arest) =
        ⟨⟨[], 1, ConnStop.eof⟩ :: (tcpListenerTask (k + 1) arest).conns,
          (tcpListenerTask (k + 1) arest).acceptErrStop⟩) := by
  have h1 : ∀ k w (rest : List ConnEvent),
      tcpConnLoop (k + 1) (ConnEvent.ok [] w :: rest) = ⟨[], 1, ConnStop.eof⟩ :=
    fun k w rest => rfl
  exact ⟨h1, rfl, rfl,
    fun k w crest arest => by simp [tcpListenerTask, h1]⟩

/-- C7: two independent variants exist and are selectable by the caller
(the two constructors of `Variant` are distinct); in the write/log
variant the listener never replies — the TCP write/log connection loop
sends no reply payloads and the UDP write/log task sends no datagrams —
and the write/log client only writes each iteration: its state is
independent of whatever replies might be available, so it never blocks
waiting for a reply. -/
theorem two_variants_write_log :
    ((Variant.pingEcho == Variant.writeLog) = false) ∧
    (∀ bound evs, (writeLogTcpConnLoop bound evs).replies = []) ∧
    (∀ bound uevs, (writeLogUdpTask bound uevs).sends = []) ∧
    (∀ writes r1 r2, writeLogClient writes r1 = writeLogClient writes r2) :=
  ⟨rfl, writeLogTcpConnLoop_replies, writeLogUdpTask_sends, fun _ _ _ => rfl⟩

/-- C8: the TCP listener task processes connections strictly sequentially:
its list of per-connection results is exactly the map of the single-threaded
`tcpConnLoop` over the connection traces in accept order (each connection is
fully drained, with a result depending on its own events alone, before the
next is begun), and one accept step produces the head connection's complete
result before the remainder of the accept trace contributes anything. -/
theorem tcp_accept_sequential :
    (∀ bound aevs, (tcpListenerTask bound aevs).conns =
      (connTraces aevs).map (tcpConnLoop bound)) ∧
    (∀ bound evs rest, tcpListenerTask bound (AcceptEvent.conn evs :: rest) =
      ⟨tcpConnLoop bound evs :: (tcpListenerTask bound rest).conns,
        (tcpListenerTask bound rest).acceptErrStop⟩) :=
  ⟨tcpListenerTask_conns, fun _ _ _ => rfl⟩

/-- C9: in the TCP client loop a reply read returning 0 bytes is not an
error: the iteration completes and the loop proceeds to the next iteration
exactly as for any reply; on an otherwise error-free remainder the loop is
still running, while a write failure on the following iteration then makes
the loop fatal at that next iteration. -/
theorem client_zero_reply_continue :
    (∀ n rest, pingTcpGo n (⟨Except.ok (), Except.ok 0⟩ :: rest) =
      pingTcpGo (n + 1) rest) ∧
    (∀ n m k, pingTcpGo n (⟨Except.ok (), Except.ok 0⟩ ::
        List.replicate m ⟨Except.ok (), Except.ok k⟩) =
      ClientState.running (n + 1 + m)) ∧
    (∀ n e rr rest, pingTcpGo n (⟨Except.ok (), Except.ok 0⟩ ::
        ⟨Except.error e, rr⟩ :: rest) =
      ClientState.fatal (n + 1) [e]) := by
  refine ⟨fun n rest => rfl, ?_, fun n e rr rest => rfl⟩
  intro n m k
  have h := pingTcpGo_replicate m (n + 1) k []
  rw [List.append_nil] at h
  calc pingTcpGo n (⟨Except.ok (), Except.ok 0⟩ ::
        List.replicate m ⟨Except.ok (), Except.ok k⟩)
      = pingTcpGo (n + 1) (List.replicate m ⟨Except.ok (), Except.ok k⟩) := rfl
    _ = pingTcpGo (n + 1 + m) [] := h
    _ = ClientState.running (n + 1 + m) := rfl

/-- C10: with the message-count bound supplied as 0 the receive-loop body
never runs: a TCP connection is drained with zero reads and zero echoes
(then dropped), the accept loop still reaches every incoming connection,
and the UDP task finishes immediately with zero receives. -/
theorem bound_zero_no_reads :
    effectiveBound (some 0) = 0 ∧
    (∀ evs, tcpConnLoop 0 evs = ⟨[], 0, ConnStop.boundExhausted⟩) ∧
    (∀ aevs, (tcpListenerTask 0 aevs).conns =
      (connTraces aevs).map (fun _ => ⟨[], 0, ConnStop.boundExhausted⟩)) ∧
    (∀ uevs, udpListenerTask 0 uevs = ⟨[], 0, UdpStop.boundExhausted⟩) := by
  refine ⟨rfl, fun evs => rfl, ?_, fun uevs => rfl⟩
  intro aevs
  induction aevs with
  | nil => rfl
  | cons ev rest ih =>
    cases ev with
    | acceptErr => rfl
    | conn evs => simp [tcpListenerTask, connTraces, ih, tcpConnLoop]
